import Mathlib

/-!
Shallow embedding of the 2D rigid-body physics engine
(src/src/physics_engine.cpp, src/src/shapes.cpp, src/src/shapes.h).

Geometry is modelled over the real numbers; the float vectors of glm
become pairs of reals, glm length / normalize / distance become their
exact real counterparts.  Every definition is translated directly from
the named C++ function; line references point into the repository
sources.
-/

namespace PhysVerify

/-- A 2D vector, modelling glm vec2. -/
structure Vec2 where
  x : ℝ
  y : ℝ

instance : Add Vec2 := ⟨fun u v => ⟨u.x + v.x, u.y + v.y⟩⟩
instance : Sub Vec2 := ⟨fun u v => ⟨u.x - v.x, u.y - v.y⟩⟩
instance : SMul ℝ Vec2 := ⟨fun c v => ⟨c * v.x, c * v.y⟩⟩

theorem Vec2.add_def (u v : Vec2) : u + v = ⟨u.x + v.x, u.y + v.y⟩ := rfl
theorem Vec2.sub_def (u v : Vec2) : u - v = ⟨u.x - v.x, u.y - v.y⟩ := rfl
theorem Vec2.smul_def (c : ℝ) (v : Vec2) : c • v = ⟨c * v.x, c * v.y⟩ := rfl

@[ext] theorem Vec2.extVec {u v : Vec2} (hx : u.x = v.x) (hy : u.y = v.y) : u = v := by
  cases u; cases v; simp_all

/-- glm dot product. -/
def Vec2.dot (u v : Vec2) : ℝ := u.x * v.x + u.y * v.y

/-- glm length: the Euclidean norm. -/
noncomputable def Vec2.length (v : Vec2) : ℝ := Real.sqrt (v.dot v)

/-- glm normalize: v divided by its length. -/
noncomputable def Vec2.normalize (v : Vec2) : Vec2 := (1 / v.length) • v

/-- glm distance between two points. -/
noncomputable def Vec2.dist (a b : Vec2) : ℝ := (b - a).length

/-- Axis-aligned bounding box (struct BoundingBox, shapes.h:27). -/
structure BBox where
  min : Vec2
  max : Vec2

/-- BoundingBox::intersects (shapes.cpp:19-22). -/
def BBox.intersects (a b : BBox) : Prop :=
  a.min.x ≤ b.max.x ∧ a.max.x ≥ b.min.x ∧ a.min.y ≤ b.max.y ∧ a.max.y ≥ b.min.y

/-- The closed case analysis of shape kinds together with their size
parameters (enum ShapeType plus the per-class size members). -/
inductive ShapeDesc where
  | circle (radius : ℝ)
  | rect (width height : ℝ)
  | tri (side : ℝ)

/-- True exactly on the triangle kind. -/
def ShapeDesc.isTri : ShapeDesc → Bool
  | .tri _ => true
  | _ => false

/-- One body: the observable state of class Shape plus PhysicsProperties
(shapes.h:19-100).  The duplicated internal position and velocity members
that physics_engine.cpp keeps in sync with the physics struct are
represented once. -/
structure Body where
  desc : ShapeDesc
  pos : Vec2
  vel : Vec2
  rotation : ℝ
  angularVelocity : ℝ
  mass : ℝ
  gravity : ℝ
  friction : ℝ
  restitution : ℝ
  isStatic : Bool
  useGlobalGravity : Bool

/-- getBoundingBox of each shape kind (shapes.cpp:202-207, 283-287
via BoundingBox::update shapes.cpp:24-27, and 359-365). -/
noncomputable def Body.getBoundingBox (b : Body) : BBox :=
  match b.desc with
  | .circle r => ⟨b.pos - ⟨r, r⟩, b.pos + ⟨r, r⟩⟩
  | .rect w h => ⟨b.pos - ⟨w * 0.5, h * 0.5⟩, b.pos + ⟨w * 0.5, h * 0.5⟩⟩
  | .tri s =>
      let ht := s * Real.sqrt 3 / 2
      ⟨b.pos - ⟨s / 2, ht / 3⟩, b.pos + ⟨s / 2, ht * 2 / 3⟩⟩

/-- getBoundingRadius of each shape kind (shapes.cpp:400-410). -/
noncomputable def Body.boundingRadius (b : Body) : ℝ :=
  match b.desc with
  | .circle r => r
  | .rect w h => Real.sqrt (w * w + h * h) * 0.5
  | .tri s => s * 0.577

/-- The circle against rectangle test shared by both argument orders of
PhysicsEngine::checkCollision (physics_engine.cpp:608-636): clamp the
circle center into the rectangle, compare the distance to the closest
point with the radius, with the same epsilon fallback as circle-circle. -/
noncomputable def circleRectCheck (circlePos : Vec2) (radius : ℝ)
    (rectPos : Vec2) (w h : ℝ) : Option (Vec2 × ℝ) :=
  let closest : Vec2 :=
    ⟨max (rectPos.x - w * 0.5) (min circlePos.x (rectPos.x + w * 0.5)),
     max (rectPos.y - h * 0.5) (min circlePos.y (rectPos.y + h * 0.5))⟩
  let diff := circlePos - closest
  let distance := diff.length
  if distance < radius then
    if distance < 0.001 then some (⟨1, 0⟩, radius)
    else some (diff.normalize, radius - distance)
  else none

/-- The per-axis x overlap of the two bounding boxes computed by the
rectangle-rectangle branch of PhysicsEngine::checkCollision
(physics_engine.cpp:594). -/
noncomputable def overlapX (a b : Body) : ℝ :=
  min (a.getBoundingBox.max.x - b.getBoundingBox.min.x)
    (b.getBoundingBox.max.x - a.getBoundingBox.min.x)

/-- The per-axis y overlap (physics_engine.cpp:595). -/
noncomputable def overlapY (a b : Body) : ℝ :=
  min (a.getBoundingBox.max.y - b.getBoundingBox.min.y)
    (b.getBoundingBox.max.y - a.getBoundingBox.min.y)

/-- PhysicsEngine::checkCollision (physics_engine.cpp:565-639), the
narrow-phase test used by the collision pipeline.  Returns
some (normal, penetration) on collision, none otherwise.  The if-else
chain of the source covers circle-circle, rectangle-rectangle and the
two circle-rectangle orders; every remaining combination (in particular
every pair involving a triangle) falls through to return false. -/
noncomputable def checkCollision (a b : Body) : Option (Vec2 × ℝ) :=
  match a.desc, b.desc with
  | .circle ra, .circle rb =>
      let diff := b.pos - a.pos
      let distance := diff.length
      let radiusSum := ra + rb
      if distance < radiusSum then
        if distance < 0.001 then some (⟨1, 0⟩, radiusSum)
        else some (diff.normalize, radiusSum - distance)
      else none
  | .rect _ _, .rect _ _ =>
      if overlapX a b > 0 ∧ overlapY a b > 0 then
        if overlapX a b < overlapY a b then
          some (⟨if a.getBoundingBox.max.x < b.getBoundingBox.max.x
            then -1 else 1, 0⟩, overlapX a b)
        else
          some (⟨0, if a.getBoundingBox.max.y < b.getBoundingBox.max.y
            then -1 else 1⟩, overlapY a b)
      else none
  | .circle rc, .rect w h => circleRectCheck a.pos rc b.pos w h
  | .rect w h, .circle rc => circleRectCheck b.pos rc a.pos w h
  | _, _ => none

/-- One collision record (struct CollisionInfo, physics_engine.h:21-29),
with the two shape pointers replaced by indices into the body list. -/
structure Collision where
  i : ℕ
  j : ℕ
  normal : Vec2
  penetration : ℝ

/-- The world state that the update pipeline touches: the owned body
collection and the world gravity and bounds members of PhysicsEngine. -/
structure World where
  bodies : List Body
  worldGravity : Vec2
  worldBounds : Vec2

/-- The integration loop body of PhysicsEngine::update
(physics_engine.cpp:317-341): non-static bodies get
velocity += gravity * dt (the world vector when the use-global-gravity
flag is set, else the vector (0, per-body gravity)), then
position += velocity * dt with the updated velocity.  The two
setInternal calls only re-synchronize the duplicated members and are
observationally the identity.  Static bodies are skipped. -/
def integrateBody (worldGravity : Vec2) (dt : ℝ) (b : Body) : Body :=
  if b.isStatic then b
  else
    let gravity := if b.useGlobalGravity then worldGravity else ⟨0, b.gravity⟩
    let velocity := b.vel + dt • gravity
    let position := b.pos + dt • velocity
    { b with vel := velocity, pos := position }

/-- The boundary-collision loop body of PhysicsEngine::update
(physics_engine.cpp:344-375): non-static bodies are clamped to the world
bounds by bounding radius, reflecting and scaling the corresponding
velocity component by restitution.  Static bodies are skipped. -/
noncomputable def boundaryCorrect (worldBounds : Vec2) (b : Body) : Body :=
  if b.isStatic then b
  else
    let radius := b.boundingRadius
    let p := b.pos
    let v := b.vel
    let xs : ℝ × ℝ :=
      if p.x - radius < 0 then (radius, -v.x * b.restitution)
      else if p.x + radius > worldBounds.x then
        (worldBounds.x - radius, -v.x * b.restitution)
      else (p.x, v.x)
    let ys : ℝ × ℝ :=
      if p.y - radius < 0 then (radius, -v.y * b.restitution)
      else if p.y + radius > worldBounds.y then
        (worldBounds.y - radius, -v.y * b.restitution)
      else (p.y, v.y)
    { b with pos := ⟨xs.1, ys.1⟩, vel := ⟨xs.2, ys.2⟩ }

/-- The direct pairwise detection pass of
PhysicsEngine::processCollisionsMultiThreaded for at most 200 bodies
(physics_engine.cpp:431-448): every index pair i < j is checked with
PhysicsEngine::checkCollision and the hits are collected in order. -/
noncomputable def detectCollisions (bodies : List Body) : List Collision :=
  (List.range bodies.length).flatMap fun i =>
    ((List.range bodies.length).filter fun j => i < j).filterMap fun j =>
      match bodies[i]?, bodies[j]? with
      | some a, some b => (checkCollision a b).map fun np => ⟨i, j, np.1, np.2⟩
      | _, _ => none

/-- Shape::resolveCollision (shapes.cpp:413-431).  This member function
is not virtual, so the call through a Shape pointer in
PhysicsEngine::resolveCollisions always lands here, never in the
shadowing per-shape versions.  If either body is static nothing happens;
otherwise, if the bodies are not separating along the normal, the
impulse j = -(1+e) * velAlongNormal / (1/mA + 1/mB) with e the minimum
restitution is applied, minus to the first body and plus to the second. -/
noncomputable def resolveVelocity (normal : Vec2) (a b : Body) : Body × Body :=
  if a.isStatic || b.isStatic then (a, b)
  else
    let relativeVel := b.vel - a.vel
    let velAlongNormal := relativeVel.dot normal
    if velAlongNormal > 0 then (a, b)
    else
      let restitution := min a.restitution b.restitution
      let j := (-(1 + restitution) * velAlongNormal) / (1 / a.mass + 1 / b.mass)
      let impulse := j • normal
      ({ a with vel := a.vel - (1 / a.mass) • impulse },
       { b with vel := b.vel + (1 / b.mass) • impulse })

/-- The positional-correction step of PhysicsEngine::resolveCollisions
(physics_engine.cpp:653-670): percent 0.2, slop 0.05, a zero total mass
is a guarded no-op, and only non-static bodies are displaced, each by the
mass share of the other body. -/
noncomputable def positionalCorrection (normal : Vec2) (pen : ℝ)
    (a b : Body) : Body × Body :=
  let penetration := max (pen - 0.05) 0
  let totalMass := a.mass + b.mass
  if totalMass = 0 then (a, b)
  else
    let correction := (penetration / totalMass * 0.2) • normal
    let a2 := if a.isStatic then a
      else { a with pos := a.pos - (b.mass / totalMass) • correction }
    let b2 := if b.isStatic then b
      else { b with pos := b.pos + (a.mass / totalMass) • correction }
    (a2, b2)

/-- One iteration of the loop in PhysicsEngine::resolveCollisions
(physics_engine.cpp:657-671): velocity resolution through
Shape::resolveCollision followed by positional correction, writing the
two bodies back. -/
noncomputable def applyCollision (bodies : List Body) (c : Collision) : List Body :=
  match bodies[c.i]?, bodies[c.j]? with
  | some a, some b =>
      let vp := resolveVelocity c.normal a b
      let pp := positionalCorrection c.normal c.penetration vp.1 vp.2
      (bodies.set c.i pp.1).set c.j pp.2
  | _, _ => bodies

/-- PhysicsEngine::resolveCollisions (physics_engine.cpp:652-672):
the recorded contacts are resolved in order. -/
noncomputable def resolveCollisions (bodies : List Body)
    (cols : List Collision) : List Body :=
  cols.foldl applyCollision bodies

/-- PhysicsEngine::update (physics_engine.cpp:309-401) restricted to its
observable effect on the bodies for at most 200 bodies: integrate all
non-static bodies, boundary-correct them, then detect and resolve the
pairwise contacts.  Rebuilding the acceleration structures, the LOD
pass, neighbor tracking and prediction do not write any body state. -/
noncomputable def engineStep (w : World) (dt : ℝ) : World :=
  let integrated := w.bodies.map (integrateBody w.worldGravity dt)
  let bounded := integrated.map (boundaryCorrect w.worldBounds)
  let cols := detectCollisions bounded
  { w with bodies := resolveCollisions bounded cols }

/-- Conversion of a float coordinate to a grid index,
static_cast to int in C++: truncation toward zero. -/
noncomputable def cppTrunc (x : ℝ) : ℤ := if 0 ≤ x then ⌊x⌋ else ⌈x⌉

/-- The inclusive grid-cell index range a body is registered in by
BroadPhaseDetector::update (physics_engine.cpp:215-228): cell size 100,
from the truncated minimum to the truncated maximum corner of its
bounding box, on each axis.  Result: ((minX, maxX), (minY, maxY)). -/
noncomputable def cellRange (b : Body) : (ℤ × ℤ) × (ℤ × ℤ) :=
  let box := b.getBoundingBox
  ((cppTrunc (box.min.x / 100), cppTrunc (box.max.x / 100)),
   (cppTrunc (box.min.y / 100), cppTrunc (box.max.y / 100)))

/-- Body b is registered in grid cell c by the double loop of
BroadPhaseDetector::update (physics_engine.cpp:223-227). -/
noncomputable def inCells (b : Body) (c : ℤ × ℤ) : Prop :=
  (cellRange b).1.1 ≤ c.1 ∧ c.1 ≤ (cellRange b).1.2 ∧
  (cellRange b).2.1 ≤ c.2 ∧ c.2 ≤ (cellRange b).2.2

/-- Two bodies share at least one grid cell. -/
noncomputable def sharesCell (a b : Body) : Prop :=
  ∃ c : ℤ × ℤ, inCells a c ∧ inCells b c

/-- The candidate-pair set produced by the spatial-grid path of
BroadPhaseDetector::update (physics_engine.cpp:210-248): within every
populated cell all pairs are enumerated and globally deduplicated by
pointer-canonical ordering into a set, so the resulting unordered pair
set consists of exactly the distinct index pairs whose bodies are
registered in a common cell (the iteration order of the unordered
containers only permutes the final vector). -/
noncomputable def gridPairs (bodies : List Body) : Set (ℕ × ℕ) :=
  { p | ∃ a b, bodies[p.1]? = some a ∧ bodies[p.2]? = some b ∧
      p.1 < p.2 ∧ sharesCell a b }

/-- The brute-force candidate-pair set of the small-count path of
BroadPhaseDetector::update (physics_engine.cpp:198-208): every index
pair i < j. -/
def brutePairs (bodies : List Body) : Set (ℕ × ℕ) :=
  { p | p.1 < p.2 ∧ p.2 < bodies.length }

/-- The quadratic coefficient V.V of PhysicsEngine::predictCollisionTime
(physics_engine.cpp:1020). -/
def predCoeffA (a b : Body) : ℝ := (b.vel - a.vel).dot (b.vel - a.vel)

/-- The quadratic coefficient 2 P.V (physics_engine.cpp:1021). -/
def predCoeffB (a b : Body) : ℝ := 2 * ((b.pos - a.pos).dot (b.vel - a.vel))

/-- The quadratic coefficient P.P - R*R (physics_engine.cpp:1022)
with R the combined bounding radius. -/
noncomputable def predCoeffC (a b : Body) : ℝ :=
  (b.pos - a.pos).dot (b.pos - a.pos) -
    (a.boundingRadius + b.boundingRadius) * (a.boundingRadius + b.boundingRadius)

/-- The discriminant b*b - 4*a*c (physics_engine.cpp:1024). -/
noncomputable def predDisc (a b : Body) : ℝ :=
  predCoeffB a b * predCoeffB a b - 4 * predCoeffA a b * predCoeffC a b

/-- The root (-b - sqrt disc) / (2 a) (physics_engine.cpp:1028). -/
noncomputable def predT1 (a b : Body) : ℝ :=
  (-predCoeffB a b - Real.sqrt (predDisc a b)) / (2 * predCoeffA a b)

/-- The root (-b + sqrt disc) / (2 a) (physics_engine.cpp:1029). -/
noncomputable def predT2 (a b : Body) : ℝ :=
  (-predCoeffB a b + Real.sqrt (predDisc a b)) / (2 * predCoeffA a b)

/-- PhysicsEngine::predictCollisionTime (physics_engine.cpp:1008-1032):
negative discriminant returns -1, otherwise t1 when non-negative, else
t2. -/
noncomputable def predictCollisionTime (a b : Body) : ℝ :=
  if predDisc a b < 0 then -1
  else if 0 ≤ predT1 a b then predT1 a b else predT2 a b

/-- PhysicsEngine::willCollideInTimeframe (physics_engine.cpp:1034-1037):
the predicted time is non-negative and within the timeframe. -/
noncomputable def willCollideInTimeframe (a b : Body) (timeframe : ℝ) : Prop :=
  0 ≤ predictCollisionTime a b ∧ predictCollisionTime a b ≤ timeframe

/-- containsPoint of each shape kind (shapes.cpp:225-228, 303-308,
380-397; the triangle uses the barycentric test over its vertices from
updateVertices, shapes.cpp:321-328). -/
noncomputable def Body.containsPoint (b : Body) (point : Vec2) : Prop :=
  match b.desc with
  | .circle r => (point - b.pos).length ≤ r
  | .rect w h =>
      point.x ≥ b.pos.x - w * 0.5 ∧ point.x ≤ b.pos.x + w * 0.5 ∧
      point.y ≥ b.pos.y - h * 0.5 ∧ point.y ≤ b.pos.y + h * 0.5
  | .tri s =>
      let ht := s * Real.sqrt 3 / 2
      let vert0 := b.pos + ⟨0, ht / 3⟩
      let vert1 := b.pos + ⟨-(s / 2), -(ht / 3)⟩
      let vert2 := b.pos + ⟨s / 2, -(ht / 3)⟩
      let v0 := vert1 - vert0
      let v1 := vert2 - vert0
      let v2 := point - vert0
      let dot00 := v0.dot v0
      let dot01 := v0.dot v1
      let dot02 := v0.dot v2
      let dot11 := v1.dot v1
      let dot12 := v1.dot v2
      let invDenom := 1 / (dot00 * dot11 - dot01 * dot01)
      let u := (dot11 * dot02 - dot01 * dot12) * invDenom
      let v := (dot00 * dot12 - dot01 * dot02) * invDenom
      u ≥ 0 ∧ v ≥ 0 ∧ u + v ≤ 1

/-- The engine state touched by the body-lifecycle and selection
operations: the owned shapes vector and the selectedShape pointer of
PhysicsEngine.  Pointer identity becomes a natural-number id attached to
each stored body. -/
structure EngineState where
  shapes : List (ℕ × Body)
  selectedShape : Option ℕ
  mousePressed : Bool

/-- PhysicsEngine::handleMousePress (physics_engine.cpp:841-856)
restricted to its selection effect: the pressed flag is set and
selectedShape becomes the first shape in container order whose
containsPoint test passes, or null when none does. -/
noncomputable def handleMousePress (s : EngineState) (mousePos : Vec2) :
    EngineState :=
  let firstHit := s.shapes.find? fun sh =>
    @decide (sh.2.containsPoint mousePos) (Classical.propDecidable _)
  { s with mousePressed := true, selectedShape := firstHit.map Prod.fst }

/-- PhysicsEngine::removeShape (physics_engine.cpp:294-297): the
erase-remove idiom deletes exactly the shapes with the given identity
and touches nothing else. -/
def removeShape (s : EngineState) (id : ℕ) : EngineState :=
  { s with shapes := s.shapes.filter fun sh => sh.1 ≠ id }

/-- PhysicsEngine::clearShapes (physics_engine.cpp:299-305): the shape
collection is emptied and selectedShape reset to null. -/
def clearShapes (s : EngineState) : EngineState :=
  { s with shapes := [], selectedShape := none }

/-- A circle body with the default PhysicsProperties of shapes.h:19-25
and the default Shape constructor state (shapes.cpp:30-38). -/
noncomputable def mkCircle (p : Vec2) (r : ℝ) : Body :=
  { desc := .circle r, pos := p, vel := ⟨0, 0⟩, rotation := 0, angularVelocity := 0,
    mass := 1, gravity := 9.81, friction := 0.1, restitution := 0.8,
    isStatic := false, useGlobalGravity := true }

/-- A rectangle body with the default properties. -/
noncomputable def mkRect (p : Vec2) (w h : ℝ) : Body :=
  { desc := .rect w h, pos := p, vel := ⟨0, 0⟩, rotation := 0, angularVelocity := 0,
    mass := 1, gravity := 9.81, friction := 0.1, restitution := 0.8,
    isStatic := false, useGlobalGravity := true }

/-- A triangle body with the default properties. -/
noncomputable def mkTri (p : Vec2) (s : ℝ) : Body :=
  { desc := .tri s, pos := p, vel := ⟨0, 0⟩, rotation := 0, angularVelocity := 0,
    mass := 1, gravity := 9.81, friction := 0.1, restitution := 0.8,
    isStatic := false, useGlobalGravity := true }

/-- A static circle used as a concrete instance for the static-body
invariant. -/
noncomputable def staticBody : Body := { mkCircle ⟨10, 10⟩ 5 with isStatic := true }

/-- A world holding only the static circle, with the constructor
defaults of PhysicsEngine (gravity (0,981), bounds 800 by 600). -/
noncomputable def wStatic : World :=
  { bodies := [staticBody], worldGravity := ⟨0, 981⟩, worldBounds := ⟨800, 600⟩ }

/-- A non-static circle with velocity (10,0), friction 1 and angular
velocity 5, used as the concrete instance for the integration step. -/
noncomputable def bC2 : Body :=
  { mkCircle ⟨100, 100⟩ 1 with vel := ⟨10, 0⟩, friction := 1, angularVelocity := 5 }

/-- A zero-gravity world holding only bC2. -/
noncomputable def wC2 : World :=
  { bodies := [bC2], worldGravity := ⟨0, 0⟩, worldBounds := ⟨1000, 1000⟩ }

/-- A static circle with restitution 0, the reference body for the
resolver counterexample. -/
noncomputable def statA : Body :=
  { mkCircle ⟨0, 0⟩ 1 with restitution := 0, isStatic := true }

/-- A dynamic circle approaching statA along the x axis. -/
noncomputable def movB : Body :=
  { mkCircle ⟨3, 0⟩ 1 with pos := ⟨3, 0⟩, vel := ⟨-1, 0⟩, restitution := 0 }

/-- A dynamic mass-2 circle moving right. -/
noncomputable def dynA : Body :=
  { mkCircle ⟨0, 0⟩ 1 with vel := ⟨1, 0⟩, mass := 2, restitution := 0 }

/-- A dynamic mass-1 circle moving left, approaching dynA. -/
noncomputable def dynB : Body :=
  { mkCircle ⟨3, 0⟩ 1 with vel := ⟨-1, 0⟩, restitution := 0 }

/-- Two overlapping equilateral triangles. -/
noncomputable def triT1 : Body := mkTri ⟨0, 0⟩ 10

/-- Second triangle, offset so the bounding boxes overlap. -/
noncomputable def triT2 : Body := mkTri ⟨2, 1⟩ 10

/-- A 4 by 4 rectangle at the origin. -/
noncomputable def rectA : Body := mkRect ⟨0, 0⟩ 4 4

/-- A 4 by 4 rectangle overlapping rectA from the right. -/
noncomputable def rectB : Body := mkRect ⟨3, 0⟩ 4 4

/-- Two circles 1000 apart: their bounding boxes touch no common grid
cell. -/
noncomputable def bodies2 : List Body := [mkCircle ⟨0, 0⟩ 1, mkCircle ⟨1000, 0⟩ 1]

/-- A circle moving right, for the prediction witness. -/
noncomputable def predA : Body := { mkCircle ⟨0, 0⟩ 1 with vel := ⟨1, 0⟩ }

/-- A circle moving left toward predA. -/
noncomputable def predB : Body := { mkCircle ⟨10, 0⟩ 1 with vel := ⟨-1, 0⟩ }

/-- An engine state holding one circle with identity 0 and no selection. -/
noncomputable def s9 : EngineState :=
  { shapes := [(0, mkCircle ⟨0, 0⟩ 5)], selectedShape := none,
    mousePressed := false }

section Theorems

theorem Vec2.dot_self_nonneg (v : Vec2) : 0 ≤ v.dot v := by
  simp only [Vec2.dot]; nlinarith [sq_nonneg v.x, sq_nonneg v.y]

theorem Vec2.length_nonneg (v : Vec2) : 0 ≤ v.length := Real.sqrt_nonneg _

theorem Vec2.length_smul (c : ℝ) (v : Vec2) : (c • v).length = |c| * v.length := by
  simp only [Vec2.length, Vec2.smul_def, Vec2.dot]
  rw [show c * v.x * (c * v.x) + c * v.y * (c * v.y) =
    c ^ 2 * (v.x * v.x + v.y * v.y) by ring,
    Real.sqrt_mul (sq_nonneg c), Real.sqrt_sq_eq_abs]

theorem Vec2.normalize_length (v : Vec2) (h : v.length ≠ 0) :
    v.normalize.length = 1 := by
  have h0 : 0 ≤ v.length := Real.sqrt_nonneg _
  rw [Vec2.normalize, Vec2.length_smul, abs_of_nonneg (by positivity), one_div,
    inv_mul_cancel₀ h]

theorem checkCollision_circle_circle (a b : Body) (ra rb : ℝ)
    (ha : a.desc = .circle ra) (hb : b.desc = .circle rb) :
    checkCollision a b =
      (if (b.pos - a.pos).length < ra + rb then
        if (b.pos - a.pos).length < 0.001 then some (⟨1, 0⟩, ra + rb)
        else some ((b.pos - a.pos).normalize, ra + rb - (b.pos - a.pos).length)
      else none) := by
  unfold checkCollision
  rw [ha, hb]

theorem sqrt_2500 : Real.sqrt 2500 = 50 := by
  rw [show (2500 : ℝ) = 50 ^ 2 by norm_num, Real.sqrt_sq (by norm_num)]

theorem sqrt_10404 : Real.sqrt 10404 = 102 := by
  rw [show (10404 : ℝ) = 102 ^ 2 by norm_num, Real.sqrt_sq (by norm_num)]

/-- C1: for every pair of circles the narrow-phase test fires iff the
center distance is strictly below the radius sum; below epsilon 0.001
the normal defaults to (1,0) with penetration the radius sum, otherwise
the normal is the normalized center difference and the penetration is
radius sum minus distance.  Radius-50 circles at (100,100) and (100,202)
report no collision; at (100,100) and (100,150) they collide with
normal (0,1) and penetration 50. -/
theorem c1_circle_circle_narrowphase (a b : Body) (ra rb : ℝ)
    (ha : a.desc = .circle ra) (hb : b.desc = .circle rb) :
    ((checkCollision a b).isSome ↔ Vec2.dist a.pos b.pos < ra + rb) ∧
    (Vec2.dist a.pos b.pos < ra + rb →
      checkCollision a b =
        if Vec2.dist a.pos b.pos < 0.001 then some (⟨1, 0⟩, ra + rb)
        else some ((b.pos - a.pos).normalize,
          ra + rb - Vec2.dist a.pos b.pos)) ∧
    checkCollision (mkCircle ⟨100, 100⟩ 50) (mkCircle ⟨100, 202⟩ 50) = none ∧
    checkCollision (mkCircle ⟨100, 100⟩ 50) (mkCircle ⟨100, 150⟩ 50) =
      some (⟨0, 1⟩, 50) := by
  refine ⟨?_, ?_, ?_, ?_⟩
  · rw [checkCollision_circle_circle a b ra rb ha hb, Vec2.dist]
    by_cases h1 : (b.pos - a.pos).length < ra + rb
    · simp only [if_pos h1, h1, iff_true]
      by_cases h2 : (b.pos - a.pos).length < 0.001 <;> simp [h2]
    · simp [if_neg h1, h1]
  · intro hlt
    rw [Vec2.dist] at hlt
    rw [checkCollision_circle_circle a b ra rb ha hb, if_pos hlt, Vec2.dist]
  · rw [checkCollision_circle_circle (mkCircle ⟨100, 100⟩ 50)
      (mkCircle ⟨100, 202⟩ 50) 50 50 rfl rfl]
    simp only [mkCircle, Vec2.length, Vec2.dot, Vec2.sub_def]
    norm_num [sqrt_10404]
  · rw [checkCollision_circle_circle (mkCircle ⟨100, 100⟩ 50)
      (mkCircle ⟨100, 150⟩ 50) 50 50 rfl rfl]
    simp only [mkCircle, Vec2.length, Vec2.dot, Vec2.sub_def, Vec2.normalize,
      Vec2.smul_def]
    norm_num [sqrt_2500]

/-- Witness for C1 at two concrete pairs of radius-50 circles. -/
theorem c1_circle_circle_narrowphase_witness :
    checkCollision (mkCircle ⟨100, 100⟩ 50) (mkCircle ⟨100, 202⟩ 50) = none ∧
    checkCollision (mkCircle ⟨100, 100⟩ 50) (mkCircle ⟨100, 150⟩ 50) =
      some (⟨0, 1⟩, 50) :=
  (c1_circle_circle_narrowphase (mkCircle ⟨100, 100⟩ 50)
    (mkCircle ⟨100, 202⟩ 50) 50 50 rfl rfl).2.2

theorem integrateBody_static (g : Vec2) (dt : ℝ) (b : Body)
    (h : b.isStatic = true) : integrateBody g dt b = b := by
  simp [integrateBody, h]

theorem boundaryCorrect_static (wb : Vec2) (b : Body)
    (h : b.isStatic = true) : boundaryCorrect wb b = b := by
  simp [boundaryCorrect, h]

theorem resolveVelocity_static (n : Vec2) (a b : Body)
    (h : a.isStatic = true ∨ b.isStatic = true) :
    resolveVelocity n a b = (a, b) := by
  rcases h with h | h <;> simp [resolveVelocity, h]

theorem positionalCorrection_static_fst (n : Vec2) (p : ℝ) (a b : Body)
    (h : a.isStatic = true) : (positionalCorrection n p a b).1 = a := by
  simp [positionalCorrection, h, apply_ite Prod.fst]

theorem positionalCorrection_static_snd (n : Vec2) (p : ℝ) (a b : Body)
    (h : b.isStatic = true) : (positionalCorrection n p a b).2 = b := by
  simp [positionalCorrection, h, apply_ite Prod.snd]

theorem applyCollision_static (bodies : List Body) (c : Collision) (k : ℕ)
    (b : Body) (hk : bodies[k]? = some b) (hs : b.isStatic = true) :
    (applyCollision bodies c)[k]? = some b := by
  have hklen : k < bodies.length := by
    rcases List.getElem?_eq_some.mp hk with ⟨h, _⟩
    exact h
  unfold applyCollision
  rcases hci : bodies[c.i]? with _ | a
  · simpa [hci] using hk
  rcases hcj : bodies[c.j]? with _ | bb
  · simpa [hci, hcj] using hk
  simp only
  by_cases hkj : c.j = k
  · subst hkj
    have hbb : bb = b := by rw [hcj] at hk; exact Option.some.inj hk
    subst hbb
    have hvp : resolveVelocity c.normal a bb = (a, bb) :=
      resolveVelocity_static _ _ _ (Or.inr hs)
    rw [hvp]
    rw [List.getElem?_set_eq_of_lt _ (by simpa using hklen)]
    rw [positionalCorrection_static_snd _ _ _ _ hs]
  · rw [List.getElem?_set_ne (fun h => hkj h)]
    by_cases hki : c.i = k
    · subst hki
      have ha : a = b := by rw [hci] at hk; exact Option.some.inj hk
      subst ha
      have hvp : resolveVelocity c.normal a bb = (a, bb) :=
        resolveVelocity_static _ _ _ (Or.inl hs)
      rw [hvp]
      rw [List.getElem?_set_eq_of_lt _ hklen]
      rw [positionalCorrection_static_fst _ _ _ _ hs]
    · rw [List.getElem?_set_ne (fun h => hki h)]
      exact hk

theorem resolveCollisions_static (cols : List Collision) (bodies : List Body)
    (k : ℕ) (b : Body) (hk : bodies[k]? = some b) (hs : b.isStatic = true) :
    (resolveCollisions bodies cols)[k]? = some b := by
  induction cols generalizing bodies with
  | nil => simpa [resolveCollisions] using hk
  | cons c cs ih =>
    exact ih (applyCollision bodies c) (applyCollision_static bodies c k b hk hs)

/-- C3: static bodies are never integrated, never boundary-corrected and
never written by impulse resolution or positional correction: any body
with the static flag set passes through a full engine step unchanged,
and resolving a contact between two static bodies leaves both bodies
unchanged. -/
theorem c3_static_bodies_untouched (w : World) (dt : ℝ) (k : ℕ) (b : Body)
    (hk : w.bodies[k]? = some b) (hs : b.isStatic = true) :
    (engineStep w dt).bodies[k]? = some b ∧
    (∀ n p a c, a.isStatic = true → c.isStatic = true →
      resolveVelocity n a c = (a, c) ∧ positionalCorrection n p a c = (a, c)) := by
  constructor
  · unfold engineStep
    simp only
    apply resolveCollisions_static
    rw [List.getElem?_map, List.getElem?_map, hk, Option.map_some',
      integrateBody_static w.worldGravity dt b hs, Option.map_some',
      boundaryCorrect_static w.worldBounds b hs]
    exact hs
  · intro n p a c ha hc
    refine ⟨resolveVelocity_static n a c (Or.inl ha), ?_⟩
    have h1 := positionalCorrection_static_fst n p a c ha
    have h2 := positionalCorrection_static_snd n p a c hc
    exact Prod.ext h1 h2

theorem c3_witness :
    (engineStep wStatic 1).bodies[0]? = some staticBody ∧
    (∀ n p a c, a.isStatic = true → c.isStatic = true →
      resolveVelocity n a c = (a, c) ∧ positionalCorrection n p a c = (a, c)) :=
  c3_static_bodies_untouched wStatic 1 0 staticBody rfl rfl

@[ext] theorem Body.extBody {a b : Body} (hdesc : a.desc = b.desc)
    (hpos : a.pos = b.pos) (hvel : a.vel = b.vel) (hrot : a.rotation = b.rotation)
    (hang : a.angularVelocity = b.angularVelocity) (hm : a.mass = b.mass)
    (hg : a.gravity = b.gravity) (hfr : a.friction = b.friction)
    (hr : a.restitution = b.restitution) (hs : a.isStatic = b.isStatic)
    (hu : a.useGlobalGravity = b.useGlobalGravity) : a = b := by
  cases a; cases b; simp_all

theorem detectCollisions_singleton (b : Body) : detectCollisions [b] = [] := by
  simp [detectCollisions, List.range_succ]

theorem boundaryCorrect_noop (wb : Vec2) (b : Body)
    (hx1 : ¬(b.pos.x - b.boundingRadius < 0))
    (hx2 : ¬(b.pos.x + b.boundingRadius > wb.x))
    (hy1 : ¬(b.pos.y - b.boundingRadius < 0))
    (hy2 : ¬(b.pos.y + b.boundingRadius > wb.y)) :
    boundaryCorrect wb b = b := by
  unfold boundaryCorrect
  by_cases hst : b.isStatic
  · simp [hst]
  · have hf0 : b.isStatic = false := by simpa using hst
    simp only [hf0, Bool.false_eq_true, if_false, if_neg hx1, if_neg hx2,
      if_neg hy1, if_neg hy2]
    ext <;> simp [hf0]

theorem c2_cex_test :
    (engineStep wC2 1).bodies.map (fun b => (b.vel, b.rotation)) =
      [(⟨10, 0⟩, 0)] := by
  have hint : integrateBody wC2.worldGravity 1 bC2 =
      { bC2 with vel := ⟨10, 0⟩, pos := ⟨110, 100⟩ } := by
    simp [integrateBody, bC2, mkCircle, wC2, Vec2.add_def, Vec2.smul_def]
    norm_num
  have hbnd : boundaryCorrect wC2.worldBounds
      ({ bC2 with vel := ⟨10, 0⟩, pos := ⟨110, 100⟩ }) =
      { bC2 with vel := ⟨10, 0⟩, pos := ⟨110, 100⟩ } := by
    apply boundaryCorrect_noop <;>
      simp [bC2, mkCircle, wC2, Body.boundingRadius] <;> norm_num
  simp only [engineStep, wC2, List.map_cons, List.map_nil]
  rw [show wC2.worldGravity = ⟨0, 0⟩ from rfl] at hint
  rw [show wC2.worldBounds = ⟨1000, 1000⟩ from rfl] at hbnd
  rw [hint, hbnd, detectCollisions_singleton]
  simp [resolveCollisions, bC2, mkCircle]

/-- C2 counterexample: at a concrete zero-gravity world holding one
non-static body with friction 1 and angular velocity 5, the engine step
leaves velocity (10,0) and rotation 0, while the claimed update rule
predicts velocity (0,0) (friction damping) and rotation 5 (angular
integration); the two disagree. -/
theorem c2_counterexample_t :
    (engineStep wC2 1).bodies.map (fun b => (b.vel, b.rotation)) =
      [(⟨10, 0⟩, 0)] ∧
    wC2.bodies.map (fun b =>
      ((1 - b.friction * 1) • (b.vel + (1 : ℝ) • wC2.worldGravity),
        b.rotation + b.angularVelocity * 1)) = [(⟨0, 0⟩, 5)] ∧
    ((⟨10, 0⟩ : Vec2) ≠ ⟨0, 0⟩ ∧ (0 : ℝ) ≠ 5) := by
  refine ⟨c2_cex_test, ?_, ?_, by norm_num⟩
  · simp only [wC2, bC2, mkCircle, List.map_cons, List.map_nil,
      Vec2.add_def, Vec2.smul_def]
    norm_num
  · intro h
    have := congrArg Vec2.x h
    norm_num at this

/-- C2 amended: one engine step updates a non-static body by
velocity += gravity times dt (world vector when the use-global-gravity
flag is set, else (0, per-body gravity)) followed by
position += velocity times dt with the updated velocity; rotation,
angular velocity and every other field are untouched, and no friction
damping is applied (those exist only in the Shape::update path, which
the engine step never calls).  Stated for a one-body world away from the
world boundary so that the boundary pass is the identity. -/
theorem c2_amended_t (w : World) (b : Body) (dt : ℝ)
    (hbodies : w.bodies = [b]) (hns : b.isStatic = false)
    (hx1 : ¬((integrateBody w.worldGravity dt b).pos.x -
      (integrateBody w.worldGravity dt b).boundingRadius < 0))
    (hx2 : ¬((integrateBody w.worldGravity dt b).pos.x +
      (integrateBody w.worldGravity dt b).boundingRadius > w.worldBounds.x))
    (hy1 : ¬((integrateBody w.worldGravity dt b).pos.y -
      (integrateBody w.worldGravity dt b).boundingRadius < 0))
    (hy2 : ¬((integrateBody w.worldGravity dt b).pos.y +
      (integrateBody w.worldGravity dt b).boundingRadius > w.worldBounds.y)) :
    (engineStep w dt).bodies =
      [{ desc := b.desc,
         pos := b.pos + dt • (b.vel + dt •
           (if b.useGlobalGravity then w.worldGravity else ⟨0, b.gravity⟩)),
         vel := b.vel + dt •
           (if b.useGlobalGravity then w.worldGravity else ⟨0, b.gravity⟩),
         rotation := b.rotation, angularVelocity := b.angularVelocity,
         mass := b.mass, gravity := b.gravity, friction := b.friction,
         restitution := b.restitution, isStatic := b.isStatic,
         useGlobalGravity := b.useGlobalGravity }] := by
  have hib : integrateBody w.worldGravity dt b =
      { desc := b.desc,
        pos := b.pos + dt • (b.vel + dt •
          (if b.useGlobalGravity then w.worldGravity else ⟨0, b.gravity⟩)),
        vel := b.vel + dt •
          (if b.useGlobalGravity then w.worldGravity else ⟨0, b.gravity⟩),
        rotation := b.rotation, angularVelocity := b.angularVelocity,
        mass := b.mass, gravity := b.gravity, friction := b.friction,
        restitution := b.restitution, isStatic := b.isStatic,
        useGlobalGravity := b.useGlobalGravity } := by
    simp only [integrateBody, hns, Bool.false_eq_true, if_false]
  have hbnd : boundaryCorrect w.worldBounds (integrateBody w.worldGravity dt b) =
      integrateBody w.worldGravity dt b :=
    boundaryCorrect_noop _ _ hx1 hx2 hy1 hy2
  simp only [engineStep, hbodies, List.map_cons, List.map_nil, hbnd,
    detectCollisions_singleton, resolveCollisions, List.foldl_nil]
  rw [hib]

/-- Witness for the amended C2 at the concrete world wC2. -/
theorem c2_amended_witness :
    (engineStep wC2 1).bodies =
      [{ desc := bC2.desc,
         pos := bC2.pos + (1 : ℝ) • (bC2.vel + (1 : ℝ) •
           (if bC2.useGlobalGravity then wC2.worldGravity else ⟨0, bC2.gravity⟩)),
         vel := bC2.vel + (1 : ℝ) •
           (if bC2.useGlobalGravity then wC2.worldGravity else ⟨0, bC2.gravity⟩),
         rotation := bC2.rotation, angularVelocity := bC2.angularVelocity,
         mass := bC2.mass, gravity := bC2.gravity, friction := bC2.friction,
         restitution := bC2.restitution, isStatic := bC2.isStatic,
         useGlobalGravity := bC2.useGlobalGravity }] := by
  apply c2_amended_t wC2 bC2 1 rfl rfl
  all_goals
    simp [integrateBody, bC2, mkCircle, wC2, Body.boundingRadius,
      Vec2.add_def, Vec2.smul_def]
  all_goals norm_num

/-- C4 counterexample: for a static body A and an approaching dynamic
body B, Shape::resolveCollision returns both bodies unchanged, whereas
the claimed impulse with zero inverse mass for the static body predicts
a nonzero velocity change for B. -/
theorem c4_counterexample_t :
    ((movB.vel - statA.vel).dot ⟨1, 0⟩ < 0) ∧
    resolveVelocity ⟨1, 0⟩ statA movB = (statA, movB) ∧
    movB.vel + (1 / movB.mass) •
      ((-(1 + min statA.restitution movB.restitution) *
        ((movB.vel - statA.vel).dot ⟨1, 0⟩) / (0 + 1 / movB.mass)) •
        (⟨1, 0⟩ : Vec2)) ≠ movB.vel := by
  refine ⟨?_, resolveVelocity_static ⟨1, 0⟩ statA movB (Or.inl rfl), ?_⟩
  · simp [statA, movB, mkCircle, Vec2.dot, Vec2.sub_def]
  · intro h
    have hx := congrArg Vec2.x h
    simp only [statA, movB, mkCircle, Vec2.dot, Vec2.sub_def, Vec2.add_def,
      Vec2.smul_def] at hx
    norm_num at hx

/-- C4 amended: when both bodies are non-static and not separating
along the normal, the applied impulse magnitude is
j = -(1+e) * (vrel dot n) / (1/mA + 1/mB) with e = min(eA,eB) and the
actual masses of both bodies (no zero-inverse-mass substitution), with
-j*n/mA applied to the first and +j*n/mB to the second body, conserving
momentum; when either body is static, no impulse at all is applied. -/
theorem c4_amended_t (n : Vec2) (a b : Body)
    (ha : a.isStatic = false) (hb : b.isStatic = false)
    (hma : a.mass ≠ 0) (hmb : b.mass ≠ 0)
    (happ : (b.vel - a.vel).dot n ≤ 0) :
    resolveVelocity n a b =
      ({ a with vel := a.vel - (1 / a.mass) •
          ((-(1 + min a.restitution b.restitution) * ((b.vel - a.vel).dot n) /
            (1 / a.mass + 1 / b.mass)) • n) },
       { b with vel := b.vel + (1 / b.mass) •
          ((-(1 + min a.restitution b.restitution) * ((b.vel - a.vel).dot n) /
            (1 / a.mass + 1 / b.mass)) • n) }) ∧
    (∀ a2 b2 : Body, a2.isStatic = true ∨ b2.isStatic = true →
      resolveVelocity n a2 b2 = (a2, b2)) ∧
    a.mass • ((resolveVelocity n a b).1.vel - a.vel) +
      b.mass • ((resolveVelocity n a b).2.vel - b.vel) = ⟨0, 0⟩ := by
  have hmain : resolveVelocity n a b =
      ({ a with vel := a.vel - (1 / a.mass) •
          ((-(1 + min a.restitution b.restitution) * ((b.vel - a.vel).dot n) /
            (1 / a.mass + 1 / b.mass)) • n) },
       { b with vel := b.vel + (1 / b.mass) •
          ((-(1 + min a.restitution b.restitution) * ((b.vel - a.vel).dot n) /
            (1 / a.mass + 1 / b.mass)) • n) }) := by
    simp only [resolveVelocity, ha, hb, Bool.or_self, Bool.false_eq_true,
      if_false, not_lt.mpr happ, if_neg (not_lt.mpr happ)]
  refine ⟨hmain, fun a2 b2 h => resolveVelocity_static n a2 b2 h, ?_⟩
  rw [hmain]
  generalize (-(1 + min a.restitution b.restitution) * ((b.vel - a.vel).dot n) /
    (1 / a.mass + 1 / b.mass)) = jv
  ext <;>
    (simp only [Vec2.add_def, Vec2.sub_def, Vec2.smul_def]; field_simp; ring)

/-- Witness for the amended C4: momentum conservation at a concrete
approaching dynamic pair. -/
theorem c4_amended_witness :
    dynA.mass • ((resolveVelocity ⟨1, 0⟩ dynA dynB).1.vel - dynA.vel) +
      dynB.mass • ((resolveVelocity ⟨1, 0⟩ dynA dynB).2.vel - dynB.vel) =
      ⟨0, 0⟩ :=
  (c4_amended_t ⟨1, 0⟩ dynA dynB rfl rfl
    (by norm_num [dynA, mkCircle]) (by norm_num [dynB, mkCircle])
    (by norm_num [dynA, dynB, mkCircle, Vec2.dot, Vec2.sub_def])).2.2

theorem sqrt3_ge_one : (1 : ℝ) ≤ Real.sqrt 3 := by
  nlinarith [Real.sq_sqrt (show (0 : ℝ) ≤ 3 by norm_num), Real.sqrt_nonneg 3]

theorem length_unit_x (c : ℝ) (h : c * c = 1) : (⟨c, 0⟩ : Vec2).length = 1 := by
  simp only [Vec2.length, Vec2.dot, mul_zero, add_zero, h, Real.sqrt_one]

theorem length_unit_y (c : ℝ) (h : c * c = 1) : (⟨0, c⟩ : Vec2).length = 1 := by
  simp only [Vec2.length, Vec2.dot, mul_zero, zero_add, h, Real.sqrt_one]

theorem checkCollisionTriNone (a b : Body)
    (h : a.desc.isTri = true ∨ b.desc.isTri = true) :
    checkCollision a b = none := by
  unfold checkCollision
  rcases ha : a.desc with ra | ⟨wa, hha⟩ | sa <;>
    rcases hb : b.desc with rb | ⟨wb, hhb⟩ | sb <;>
      simp_all [ShapeDesc.isTri]

/-- C5 counterexample: two overlapping triangles whose bounding boxes
intersect are reported as NOT colliding by the narrow phase, contrary to
the claimed AABB-overlap test. -/
theorem c5_counterexample_t :
    checkCollision triT1 triT2 = none ∧
    triT1.getBoundingBox.intersects triT2.getBoundingBox := by
  constructor
  · rfl
  · have h3 := sqrt3_ge_one
    simp only [Body.getBoundingBox, triT1, triT2, mkTri, BBox.intersects,
      Vec2.add_def, Vec2.sub_def]
    norm_num
    constructor <;> nlinarith

/-- C5 amended: the pipeline narrow phase PhysicsEngine::checkCollision
has no triangle branch at all: every pair involving a triangle falls
through to the no-collision result.  (The per-shape virtual
Triangle::checkCollision AABB test exists but is never called by the
collision pipeline.) -/
theorem c5_amended_t (a b : Body)
    (h : a.desc.isTri = true ∨ b.desc.isTri = true) :
    checkCollision a b = none :=
  checkCollisionTriNone a b h

/-- Witness for the amended C5 at a concrete triangle-circle pair. -/
theorem c5_amended_witness :
    checkCollision triT1 (mkCircle ⟨0, 0⟩ 1) = none :=
  c5_amended_t triT1 (mkCircle ⟨0, 0⟩ 1) (Or.inl rfl)

theorem checkCollision_rect_rect (a b : Body) (wa ha2 wb hb2 : ℝ)
    (ha : a.desc = .rect wa ha2) (hb : b.desc = .rect wb hb2) :
    checkCollision a b =
      (if overlapX a b > 0 ∧ overlapY a b > 0 then
        if overlapX a b < overlapY a b then
          some (⟨if a.getBoundingBox.max.x < b.getBoundingBox.max.x
            then -1 else 1, 0⟩, overlapX a b)
        else
          some (⟨0, if a.getBoundingBox.max.y < b.getBoundingBox.max.y
            then -1 else 1⟩, overlapY a b)
      else none) := by
  unfold checkCollision
  rw [ha, hb]

theorem checkCollision_circle_rect (a b : Body) (rc w h : ℝ)
    (ha : a.desc = .circle rc) (hb : b.desc = .rect w h) :
    checkCollision a b = circleRectCheck a.pos rc b.pos w h := by
  unfold checkCollision
  rw [ha, hb]

theorem checkCollision_rect_circle (a b : Body) (w h rc : ℝ)
    (ha : a.desc = .rect w h) (hb : b.desc = .circle rc) :
    checkCollision a b = circleRectCheck b.pos rc a.pos w h := by
  unfold checkCollision
  rw [ha, hb]

theorem circleCircle_some (a b : Body) (ra rb : ℝ) (n : Vec2) (p : ℝ)
    (ha : a.desc = .circle ra) (hb : b.desc = .circle rb)
    (hsome : checkCollision a b = some (n, p)) : n.length = 1 ∧ 0 < p := by
  rw [checkCollision_circle_circle a b ra rb ha hb] at hsome
  by_cases h1 : (b.pos - a.pos).length < ra + rb
  · rw [if_pos h1] at hsome
    by_cases h2 : (b.pos - a.pos).length < 0.001
    · rw [if_pos h2] at hsome
      simp only [Option.some.injEq, Prod.mk.injEq] at hsome
      obtain ⟨hn, hp⟩ := hsome
      subst hn hp
      refine ⟨length_unit_x 1 (by norm_num), ?_⟩
      have := Vec2.length_nonneg (b.pos - a.pos)
      linarith
    · rw [if_neg h2] at hsome
      simp only [Option.some.injEq, Prod.mk.injEq] at hsome
      obtain ⟨hn, hp⟩ := hsome
      subst hn hp
      have hne : (b.pos - a.pos).length ≠ 0 := by
        intro h0
        rw [h0] at h2
        norm_num at h2
      exact ⟨Vec2.normalize_length _ hne, by linarith⟩
  · rw [if_neg h1] at hsome
    exact absurd hsome (by simp)

theorem circleRectCheck_some (cp : Vec2) (r : ℝ) (rp : Vec2) (w h : ℝ)
    (n : Vec2) (p : ℝ) (hsome : circleRectCheck cp r rp w h = some (n, p)) :
    n.length = 1 ∧ 0 < p := by
  simp only [circleRectCheck] at hsome
  by_cases h1 : (cp - ⟨max (rp.x - w * 0.5) (min cp.x (rp.x + w * 0.5)),
      max (rp.y - h * 0.5) (min cp.y (rp.y + h * 0.5))⟩).length < r
  · rw [if_pos h1] at hsome
    by_cases h2 : (cp - ⟨max (rp.x - w * 0.5) (min cp.x (rp.x + w * 0.5)),
        max (rp.y - h * 0.5) (min cp.y (rp.y + h * 0.5))⟩).length < 0.001
    · rw [if_pos h2] at hsome
      simp only [Option.some.injEq, Prod.mk.injEq] at hsome
      obtain ⟨hn, hp⟩ := hsome
      subst hn hp
      refine ⟨length_unit_x 1 (by norm_num), ?_⟩
      have := Vec2.length_nonneg (cp - ⟨max (rp.x - w * 0.5)
        (min cp.x (rp.x + w * 0.5)),
        max (rp.y - h * 0.5) (min cp.y (rp.y + h * 0.5))⟩)
      linarith
    · rw [if_neg h2] at hsome
      simp only [Option.some.injEq, Prod.mk.injEq] at hsome
      obtain ⟨hn, hp⟩ := hsome
      subst hn hp
      have hne : (cp - ⟨max (rp.x - w * 0.5) (min cp.x (rp.x + w * 0.5)),
          max (rp.y - h * 0.5) (min cp.y (rp.y + h * 0.5))⟩).length ≠ 0 := by
        intro h0
        rw [h0] at h2
        norm_num at h2
      exact ⟨Vec2.normalize_length _ hne, by linarith⟩
  · rw [if_neg h1] at hsome
    exact absurd hsome (by simp)

theorem rectRect_some (a b : Body) (n : Vec2) (p : ℝ)
    (wa ha2 wb hb2 : ℝ) (ha : a.desc = .rect wa ha2) (hb : b.desc = .rect wb hb2)
    (hsome : checkCollision a b = some (n, p)) :
    n.length = 1 ∧ 0 < p ∧
    ((overlapX a b < overlapY a b ∧
      n = ⟨if a.getBoundingBox.max.x < b.getBoundingBox.max.x
        then -1 else 1, 0⟩ ∧
      p = overlapX a b) ∨
     (¬overlapX a b < overlapY a b ∧
      n = ⟨0, if a.getBoundingBox.max.y < b.getBoundingBox.max.y
        then -1 else 1⟩ ∧
      p = overlapY a b)) := by
  rw [checkCollision_rect_rect a b wa ha2 wb hb2 ha hb] at hsome
  by_cases hov : overlapX a b > 0 ∧ overlapY a b > 0
  · rw [if_pos hov] at hsome
    by_cases hxy : overlapX a b < overlapY a b
    · rw [if_pos hxy] at hsome
      simp only [Option.some.injEq, Prod.mk.injEq] at hsome
      obtain ⟨hn, hp⟩ := hsome
      subst hn hp
      exact ⟨length_unit_x
        (if a.getBoundingBox.max.x < b.getBoundingBox.max.x then -1 else 1)
        (by split <;> norm_num), hov.1, Or.inl ⟨hxy, rfl, rfl⟩⟩
    · rw [if_neg hxy] at hsome
      simp only [Option.some.injEq, Prod.mk.injEq] at hsome
      obtain ⟨hn, hp⟩ := hsome
      subst hn hp
      exact ⟨length_unit_y
        (if a.getBoundingBox.max.y < b.getBoundingBox.max.y then -1 else 1)
        (by split <;> norm_num), hov.2, Or.inr ⟨hxy, rfl, rfl⟩⟩
  · rw [if_neg hov] at hsome
    exact absurd hsome (by simp)

theorem rectAB_collision : checkCollision rectA rectB = some (⟨-1, 0⟩, 1) := by
  rw [checkCollision_rect_rect rectA rectB 4 4 4 4 rfl rfl]
  simp only [overlapX, overlapY, Body.getBoundingBox, rectA, rectB, mkRect,
    Vec2.add_def, Vec2.sub_def]
  norm_num

/-- C7 counterexample: for two overlapping 4 by 4 rectangles with the
second to the right of the first, the returned normal (-1,0) points from
the second body toward the first, not from the first to the second. -/
theorem c7_counterexample_t :
    checkCollision rectA rectB = some (⟨-1, 0⟩, 1) ∧
    (⟨-1, 0⟩ : Vec2).dot (rectB.pos - rectA.pos) < 0 := by
  refine ⟨rectAB_collision, ?_⟩
  simp only [Vec2.dot, Vec2.sub_def, rectA, rectB, mkRect]
  norm_num

/-- C7 amended: whenever the narrow phase reports a collision the
returned normal is a unit vector and the penetration is positive; for
rectangle-rectangle contacts the normal lies along the axis of minimum
per-axis AABB overlap with sign chosen toward the rectangle with the
smaller maximum coordinate on that axis (which need not point from the
first body to the second). -/
theorem c7_amended_t (a b : Body) (n : Vec2) (p : ℝ)
    (hsome : checkCollision a b = some (n, p)) :
    (n.length = 1 ∧ 0 < p) ∧
    (∀ wa ha2 wb hb2, a.desc = .rect wa ha2 → b.desc = .rect wb hb2 →
      ((overlapX a b < overlapY a b ∧
        n = ⟨if a.getBoundingBox.max.x < b.getBoundingBox.max.x
          then -1 else 1, 0⟩ ∧
        p = overlapX a b) ∨
       (¬overlapX a b < overlapY a b ∧
        n = ⟨0, if a.getBoundingBox.max.y < b.getBoundingBox.max.y
          then -1 else 1⟩ ∧
        p = overlapY a b))) := by
  rcases ha : a.desc with ra | ⟨wa0, ha0⟩ | sa <;>
    rcases hb : b.desc with rb | ⟨wb0, hb0⟩ | sb
  · exact ⟨circleCircle_some a b ra rb n p ha hb hsome,
      fun wa ha2 wb hb2 haeq hbeq => absurd haeq (by simp)⟩
  · rw [checkCollision_circle_rect a b ra wb0 hb0 ha hb] at hsome
    exact ⟨circleRectCheck_some a.pos ra b.pos wb0 hb0 n p hsome,
      fun wa ha2 wb hb2 haeq hbeq => absurd haeq (by simp)⟩
  · rw [checkCollisionTriNone a b (Or.inr (by rw [hb]; rfl))] at hsome
    exact absurd hsome (by simp)
  · rw [checkCollision_rect_circle a b wa0 ha0 rb ha hb] at hsome
    exact ⟨circleRectCheck_some b.pos rb a.pos wa0 ha0 n p hsome,
      fun wa ha2 wb hb2 haeq hbeq => absurd hbeq (by simp)⟩
  · obtain ⟨h1, h2, h3⟩ := rectRect_some a b n p wa0 ha0 wb0 hb0 ha hb hsome
    exact ⟨⟨h1, h2⟩, fun wa ha2 wb hb2 haeq hbeq => h3⟩
  · rw [checkCollisionTriNone a b (Or.inr (by rw [hb]; rfl))] at hsome
    exact absurd hsome (by simp)
  · rw [checkCollisionTriNone a b (Or.inl (by rw [ha]; rfl))] at hsome
    exact absurd hsome (by simp)
  · rw [checkCollisionTriNone a b (Or.inl (by rw [ha]; rfl))] at hsome
    exact absurd hsome (by simp)
  · rw [checkCollisionTriNone a b (Or.inl (by rw [ha]; rfl))] at hsome
    exact absurd hsome (by simp)

/-- Witness for the amended C7 at the concrete rectangle pair. -/
theorem c7_amended_witness :
    ((⟨-1, 0⟩ : Vec2).length = 1 ∧ (0 : ℝ) < 1) :=
  (c7_amended_t rectA rectB ⟨-1, 0⟩ 1 rectAB_collision).1

theorem sharesCell_iff (a b : Body) :
    sharesCell a b ↔
      (max (cellRange a).1.1 (cellRange b).1.1 ≤
        min (cellRange a).1.2 (cellRange b).1.2 ∧
       max (cellRange a).2.1 (cellRange b).2.1 ≤
        min (cellRange a).2.2 (cellRange b).2.2) := by
  constructor
  · rintro ⟨c, ⟨h1, h2, h3, h4⟩, h5, h6, h7, h8⟩
    omega
  · rintro ⟨hx, hy⟩
    refine ⟨(max (cellRange a).1.1 (cellRange b).1.1,
      max (cellRange a).2.1 (cellRange b).2.1), ⟨?_, ?_, ?_, ?_⟩, ?_, ?_, ?_, ?_⟩ <;>
      omega

theorem cellRange_b20 : cellRange (mkCircle ⟨0, 0⟩ 1) = ((0, 0), (0, 0)) := by
  simp only [cellRange, Body.getBoundingBox, mkCircle, Vec2.sub_def, Vec2.add_def,
    cppTrunc]
  norm_num

theorem cellRange_b21 : cellRange (mkCircle ⟨1000, 0⟩ 1) = ((9, 10), (0, 0)) := by
  simp only [cellRange, Body.getBoundingBox, mkCircle, Vec2.sub_def, Vec2.add_def,
    cppTrunc]
  norm_num

/-- C6 counterexample: for two bodies 1000 units apart the brute-force
candidate set contains the pair (0,1) while the grid broad phase does
not, so the two sets are not equal for every configuration. -/
theorem c6_counterexample_t :
    (0, 1) ∈ brutePairs bodies2 ∧ (0, 1) ∉ gridPairs bodies2 := by
  constructor
  · exact ⟨by norm_num, by simp [bodies2]⟩
  · rintro ⟨a, b, ha, hb, hlt, hcell⟩
    have ha2 : a = mkCircle ⟨0, 0⟩ 1 := by
      simpa [bodies2] using ha.symm
    have hb2 : b = mkCircle ⟨1000, 0⟩ 1 := by
      simpa [bodies2] using hb.symm
    subst ha2 hb2
    rw [sharesCell_iff, cellRange_b20, cellRange_b21] at hcell
    norm_num at hcell

/-- C6 amended: the grid broad phase produces exactly the subset of the
brute-force pairs whose bodies are registered in at least one common
grid cell, i.e. whose truncated cell index ranges overlap on both axes;
in particular it is always a subset of the brute-force enumeration, with
equality only when every pair shares a cell. -/
theorem c6_amended_t (bodies : List Body) (p : ℕ × ℕ) :
    (p ∈ gridPairs bodies → p ∈ brutePairs bodies) ∧
    (p ∈ gridPairs bodies ↔
      p ∈ brutePairs bodies ∧ ∃ a b, bodies[p.1]? = some a ∧
        bodies[p.2]? = some b ∧
        (max (cellRange a).1.1 (cellRange b).1.1 ≤
          min (cellRange a).1.2 (cellRange b).1.2 ∧
         max (cellRange a).2.1 (cellRange b).2.1 ≤
          min (cellRange a).2.2 (cellRange b).2.2)) := by
  have hmain : p ∈ gridPairs bodies ↔
      p ∈ brutePairs bodies ∧ ∃ a b, bodies[p.1]? = some a ∧
        bodies[p.2]? = some b ∧
        (max (cellRange a).1.1 (cellRange b).1.1 ≤
          min (cellRange a).1.2 (cellRange b).1.2 ∧
         max (cellRange a).2.1 (cellRange b).2.1 ≤
          min (cellRange a).2.2 (cellRange b).2.2) := by
    constructor
    · rintro ⟨a, b, ha, hb, hlt, hcell⟩
      have hlen : p.2 < bodies.length := by
        rcases List.getElem?_eq_some.mp hb with ⟨h, _⟩
        exact h
      exact ⟨⟨hlt, hlen⟩, a, b, ha, hb, (sharesCell_iff a b).mp hcell⟩
    · rintro ⟨⟨hlt, hlen⟩, a, b, ha, hb, hover⟩
      exact ⟨a, b, ha, hb, hlt, (sharesCell_iff a b).mpr hover⟩
  exact ⟨fun h => (hmain.mp h).1, hmain⟩

/-- Witness for the amended C6 at the concrete two-body configuration. -/
theorem c6_amended_witness :
    ((0, 1) ∈ gridPairs bodies2 → (0, 1) ∈ brutePairs bodies2) ∧
    ((0, 1) ∈ gridPairs bodies2 ↔
      (0, 1) ∈ brutePairs bodies2 ∧ ∃ a b, bodies2[0]? = some a ∧
        bodies2[1]? = some b ∧
        (max (cellRange a).1.1 (cellRange b).1.1 ≤
          min (cellRange a).1.2 (cellRange b).1.2 ∧
         max (cellRange a).2.1 (cellRange b).2.1 ≤
          min (cellRange a).2.2 (cellRange b).2.2)) :=
  c6_amended_t bodies2 (0, 1)

/-- C8: for bodies with nonzero relative velocity, collision-time
prediction solves the quadratic (V.V)t^2 + 2(P.V)t + (P.P - R^2) = 0: a
negative discriminant yields no predicted collision (result -1, not
marked); otherwise the returned time is a root, namely the smaller root
t1 when non-negative, else the larger root t2; and the pair is marked
will-collide iff the returned time lies in [0, 0.1]. -/
theorem c8_prediction (a b : Body) (hA : predCoeffA a b ≠ 0) :
    (predDisc a b < 0 → predictCollisionTime a b = -1 ∧
      ¬willCollideInTimeframe a b 0.1) ∧
    (0 ≤ predDisc a b →
      predCoeffA a b * (predictCollisionTime a b * predictCollisionTime a b) +
        predCoeffB a b * predictCollisionTime a b + predCoeffC a b = 0 ∧
      predT1 a b ≤ predT2 a b ∧
      (0 ≤ predT1 a b → predictCollisionTime a b = predT1 a b) ∧
      (predT1 a b < 0 → predictCollisionTime a b = predT2 a b)) ∧
    (willCollideInTimeframe a b 0.1 ↔
      0 ≤ predictCollisionTime a b ∧ predictCollisionTime a b ≤ 0.1) := by
  have hApos : 0 < predCoeffA a b :=
    lt_of_le_of_ne (Vec2.dot_self_nonneg _) (Ne.symm hA)
  refine ⟨?_, ?_, Iff.rfl⟩
  · intro hd
    have hpred : predictCollisionTime a b = -1 := by
      rw [predictCollisionTime, if_pos hd]
    refine ⟨hpred, ?_⟩
    rw [willCollideInTimeframe, hpred]
    norm_num
  · intro hd
    have hs : discrim (predCoeffA a b) (predCoeffB a b) (predCoeffC a b) =
        Real.sqrt (predDisc a b) * Real.sqrt (predDisc a b) := by
      rw [Real.mul_self_sqrt hd, discrim, predDisc]
      ring
    have hpred : predictCollisionTime a b =
        if 0 ≤ predT1 a b then predT1 a b else predT2 a b := by
      rw [predictCollisionTime, if_neg (not_lt.mpr hd)]
    have hroot : ∀ t, t = predT1 a b ∨ t = predT2 a b →
        predCoeffA a b * (t * t) + predCoeffB a b * t + predCoeffC a b = 0 := by
      intro t ht
      rw [quadratic_eq_zero_iff hA hs t]
      rcases ht with ht | ht
      · exact Or.inr ht
      · exact Or.inl ht
    refine ⟨?_, ?_, ?_, ?_⟩
    · apply hroot
      rw [hpred]
      split
      · exact Or.inl rfl
      · exact Or.inr rfl
    · rw [predT1, predT2, div_le_div_iff_of_pos_right (by linarith : 0 < 2 * predCoeffA a b)]
      have := Real.sqrt_nonneg (predDisc a b)
      linarith
    · intro h1
      rw [hpred, if_pos h1]
    · intro h1
      rw [hpred, if_neg (not_le.mpr h1)]

/-- Witness for C8 at a concrete approaching pair. -/
theorem c8_prediction_witness :
    (predDisc predA predB < 0 → predictCollisionTime predA predB = -1 ∧
      ¬willCollideInTimeframe predA predB 0.1) ∧
    (0 ≤ predDisc predA predB →
      predCoeffA predA predB *
        (predictCollisionTime predA predB * predictCollisionTime predA predB) +
        predCoeffB predA predB * predictCollisionTime predA predB +
        predCoeffC predA predB = 0 ∧
      predT1 predA predB ≤ predT2 predA predB ∧
      (0 ≤ predT1 predA predB →
        predictCollisionTime predA predB = predT1 predA predB) ∧
      (predT1 predA predB < 0 →
        predictCollisionTime predA predB = predT2 predA predB)) ∧
    (willCollideInTimeframe predA predB 0.1 ↔
      0 ≤ predictCollisionTime predA predB ∧
        predictCollisionTime predA predB ≤ 0.1) :=
  c8_prediction predA predB
    (by norm_num [predCoeffA, predA, predB, mkCircle, Vec2.dot, Vec2.sub_def])

/-- C9: after picking the only body (identity 0) and then removing it by
identity, the body is gone from the collection but the engine still
holds the stale selectedShape reference to it: removeShape does not
clear selection or drag state (only clearShapes does). -/
theorem c9_removeShape_stale_selection :
    (removeShape (handleMousePress s9 ⟨0, 0⟩) 0).shapes = [] ∧
    (removeShape (handleMousePress s9 ⟨0, 0⟩) 0).selectedShape = some 0 := by
  have hcontains : (mkCircle ⟨0, 0⟩ 5).containsPoint ⟨0, 0⟩ := by
    simp only [Body.containsPoint, mkCircle, Vec2.length, Vec2.dot, Vec2.sub_def]
    norm_num
  have hsel : (handleMousePress s9 ⟨0, 0⟩).selectedShape = some 0 := by
    simp only [handleMousePress, s9]
    rw [@List.find?_cons_of_pos (ℕ × Body)
      (fun sh => @decide (sh.2.containsPoint ⟨0, 0⟩) (Classical.propDecidable _))
      (0, mkCircle ⟨0, 0⟩ 5) []
      (@decide_eq_true _ (Classical.propDecidable _) hcontains)]
    rfl
  constructor
  · simp [removeShape, handleMousePress, s9]
  · simp only [removeShape]
    exact hsel

theorem circleRectCheck_cases (cp : Vec2) (rr : ℝ) (rp : Vec2) (w h : ℝ)
    (n : Vec2) (p : ℝ) (hsome : circleRectCheck cp rr rp w h = some (n, p)) :
    ((cp - ⟨max (rp.x - w * 0.5) (min cp.x (rp.x + w * 0.5)),
        max (rp.y - h * 0.5) (min cp.y (rp.y + h * 0.5))⟩).length < 0.001 →
      n = ⟨1, 0⟩ ∧ p = rr) ∧
    (¬(cp - ⟨max (rp.x - w * 0.5) (min cp.x (rp.x + w * 0.5)),
        max (rp.y - h * 0.5) (min cp.y (rp.y + h * 0.5))⟩).length < 0.001 →
      n = (cp - ⟨max (rp.x - w * 0.5) (min cp.x (rp.x + w * 0.5)),
        max (rp.y - h * 0.5) (min cp.y (rp.y + h * 0.5))⟩).normalize ∧
      p = rr - (cp - ⟨max (rp.x - w * 0.5) (min cp.x (rp.x + w * 0.5)),
        max (rp.y - h * 0.5) (min cp.y (rp.y + h * 0.5))⟩).length) := by
  simp only [circleRectCheck] at hsome
  by_cases h1 : (cp - ⟨max (rp.x - w * 0.5) (min cp.x (rp.x + w * 0.5)),
      max (rp.y - h * 0.5) (min cp.y (rp.y + h * 0.5))⟩).length < rr
  · rw [if_pos h1] at hsome
    by_cases h2 : (cp - ⟨max (rp.x - w * 0.5) (min cp.x (rp.x + w * 0.5)),
        max (rp.y - h * 0.5) (min cp.y (rp.y + h * 0.5))⟩).length < 0.001
    · rw [if_pos h2] at hsome
      simp only [Option.some.injEq, Prod.mk.injEq] at hsome
      obtain ⟨hn, hp⟩ := hsome
      exact ⟨fun _ => ⟨hn.symm, hp.symm⟩, fun hcon => absurd h2 hcon⟩
    · rw [if_neg h2] at hsome
      simp only [Option.some.injEq, Prod.mk.injEq] at hsome
      obtain ⟨hn, hp⟩ := hsome
      exact ⟨fun hcon => absurd hcon h2, fun _ => ⟨hn.symm, hp.symm⟩⟩
  · rw [if_neg h1] at hsome
    exact absurd hsome (by simp)

/-- C10: the circle-rectangle narrow-phase test is symmetric in its two
arguments: both orders return the identical result, computed by the same
clamp-closest-point test, and the returned normal is the normalized
vector from the rectangle closest point toward the circle center, or
(1,0) in the near-zero-distance degenerate case, regardless of argument
order. -/
theorem c10_circle_rect_symmetric (c r : Body) (rc w h : ℝ)
    (hc : c.desc = .circle rc) (hr : r.desc = .rect w h) :
    checkCollision c r = checkCollision r c ∧
    checkCollision c r = circleRectCheck c.pos rc r.pos w h ∧
    (∀ n p, checkCollision c r = some (n, p) →
      (((c.pos - ⟨max (r.pos.x - w * 0.5) (min c.pos.x (r.pos.x + w * 0.5)),
          max (r.pos.y - h * 0.5) (min c.pos.y (r.pos.y + h * 0.5))⟩).length <
          0.001 → n = ⟨1, 0⟩ ∧ p = rc) ∧
       (¬(c.pos - ⟨max (r.pos.x - w * 0.5) (min c.pos.x (r.pos.x + w * 0.5)),
          max (r.pos.y - h * 0.5) (min c.pos.y (r.pos.y + h * 0.5))⟩).length <
          0.001 →
        n = (c.pos - ⟨max (r.pos.x - w * 0.5) (min c.pos.x (r.pos.x + w * 0.5)),
          max (r.pos.y - h * 0.5) (min c.pos.y (r.pos.y + h * 0.5))⟩).normalize ∧
        p = rc - (c.pos - ⟨max (r.pos.x - w * 0.5)
          (min c.pos.x (r.pos.x + w * 0.5)),
          max (r.pos.y - h * 0.5) (min c.pos.y (r.pos.y + h * 0.5))⟩).length))) := by
  have hcr := checkCollision_circle_rect c r rc w h hc hr
  have hrc := checkCollision_rect_circle r c w h rc hr hc
  refine ⟨by rw [hcr, hrc], hcr, ?_⟩
  intro n p hsome
  rw [hcr] at hsome
  exact circleRectCheck_cases c.pos rc r.pos w h n p hsome

/-- Witness for C10 at a concrete circle-rectangle pair. -/
theorem c10_witness :
    checkCollision (mkCircle ⟨0, 0⟩ 5) (mkRect ⟨3, 0⟩ 4 4) =
      checkCollision (mkRect ⟨3, 0⟩ 4 4) (mkCircle ⟨0, 0⟩ 5) :=
  (c10_circle_rect_symmetric (mkCircle ⟨0, 0⟩ 5) (mkRect ⟨3, 0⟩ 4 4)
    5 4 4 rfl rfl).1

end Theorems

end PhysVerify
